import Mathlib

/-
  Verification development for the notification-service event delivery and
  consumption pipeline.

  Shallow embedding of:
  - libs/core/src/lib/utils/connection-retry.util.ts       (retryConnection)
  - libs/core/src/lib/services/encryption/kms-encryption.service.ts
  - libs/core/src/lib/validation/validation.service.ts and schemas/event.schema.ts
  - libs/provider-adapters/src/lib/sns/sns-provider.adapter.ts
  - libs/provider-adapters/src/lib/providers/aws-sns.provider.ts (SqsProviderAdapter)
  - apps/lambda-processor/src/app/handlers/notification.handler.ts
  - apps/lambda-processor/src/app/services/sqs-subscriber.service.ts
  - the NotificationProviderFactory (factory for INotificationProvider instances)

  JavaScript strings that flow through JSON.parse / JSON.stringify are modelled
  by the type JStr: a string is either opaque text (raw) or the JSON
  serialization of a JSON document (enc).  JSON.parse (enc v) = v models the
  round-trip law of the real serializer.  JavaScript truthiness is modelled
  explicitly (jsTruthy), since the handler validator and the subscriber use
  truthiness checks, not undefined checks.
-/

namespace NotifService

/-! ## JSON value model -/

mutual

/-- A JavaScript string as it flows through this pipeline: either opaque text
or the JSON serialization of a document `v` (so that JSON.parse recovers `v`). -/
inductive JStr where
  | raw (text : String)
  | enc (v : Json)

/-- JSON values (the values JSON.parse can produce). -/
inductive Json where
  | null
  | bool (b : Bool)
  | num (n : Int)
  | str (s : JStr)
  | arr (elems : List Json)
  | obj (fields : List (String × Json))

end

/-- Truthiness of a JStr: only the empty string is falsy; a JSON serialization
is never the empty string. -/
def jstrTruthy : JStr → Bool
  | .raw t => t ≠ ""
  | .enc _ => true

/-- JavaScript truthiness of a JSON value. -/
def jsTruthy : Json → Bool
  | .null => false
  | .bool b => b
  | .num n => n ≠ 0
  | .str s => jstrTruthy s
  | .arr _ => true
  | .obj _ => true

/-- Whether a JSON value is null (JS member access on null throws). -/
def Json.isNull : Json → Bool
  | .null => true
  | _ => false

/-- JS member access `j[k]`: a field of an object, `undefined` (none) for a
missing field or for access on a non-object primitive.  Access on null is
handled separately by callers (it throws in JS). -/
def jsGet : Json → String → Option Json
  | .obj fields, k => fields.lookup k
  | _, _ => none

/-- Member access on an optional value (undefined propagates to undefined). -/
def jsGetO : Option Json → String → Option Json
  | some j, k => jsGet j k
  | none, _ => none

/-- Truthiness of a possibly-undefined value. -/
def jsTruthyOpt : Option Json → Bool
  | some j => jsTruthy j
  | none => false

/-- JSON.parse on a string: a serialized document parses back to itself, and
opaque text is modelled as not being valid JSON. -/
def jsonParseJS : JStr → Except String Json
  | .enc v => .ok v
  | .raw _ => .error "Unexpected token in JSON"

/-! ## Retry Executor (connection-retry.util.ts, retryConnection) -/

/-- Result of running retryConnection: the value or the thrown error, the total
number of invocations of connectFn, and the sequence of waits performed. -/
structure RetryRun (α : Type) where
  result : Except String α
  invocations : Nat
  delays : List Nat

/-- Terminal error message raised after exhausting all retries
(connection-retry.util.ts line 81). -/
def connectFailedAfterMsg (serviceName : String) (maxRetries : Nat) : String :=
  "Failed to connect to " ++ serviceName ++ " after " ++ toString maxRetries ++ " attempts"

/-- Unreachable fallback error message (connection-retry.util.ts line 108). -/
def connectFailedMsg (serviceName : String) : String :=
  "Failed to connect to " ++ serviceName

/-- The while-loop of retryConnection.  `op n` is the outcome of the n-th
invocation of connectFn (0-based); `attempts` counts failures so far and
`currentDelay` is the next wait.  The loop guard `attempts < maxRetries` is
carried structurally as `remaining = maxRetries - attempts`: remaining = 0 is
the (unreachable for maxRetries > 0) fall-through after the loop, and
remaining = 1 after a failure is `attempts + 1 >= maxRetries`, the terminal
throw.  Mirrors lines 74-108 of the source: on failure increment attempts,
throw the terminal error when attempts reaches maxRetries, otherwise wait
currentDelay and continue with min (currentDelay * backoffFactor) maxDelay. -/
def retryLoop {α : Type} (op : Nat → Except String α) (serviceName : String)
    (maxRetries maxDelay backoffFactor : Nat) :
    Nat → Nat → Nat → RetryRun α
  | 0, attempts, _ =>
    ⟨.error (connectFailedMsg serviceName), attempts, []⟩
  | remaining + 1, attempts, currentDelay =>
    match op attempts with
    | .ok v => ⟨.ok v, attempts + 1, []⟩
    | .error _ =>
      if remaining = 0 then
        ⟨.error (connectFailedAfterMsg serviceName maxRetries), attempts + 1, []⟩
      else
        let rest := retryLoop op serviceName maxRetries maxDelay backoffFactor
          remaining (attempts + 1) (min (currentDelay * backoffFactor) maxDelay)
        ⟨rest.result, rest.invocations, currentDelay :: rest.delays⟩

/-- retryConnection with explicit options (defaults at the call sites:
maxRetries 5, initialDelay 1000, maxDelay 30000, backoffFactor 2). -/
def retryConnectionRun {α : Type} (op : Nat → Except String α)
    (maxRetries initialDelay maxDelay backoffFactor : Nat)
    (serviceName : String) : RetryRun α :=
  retryLoop op serviceName maxRetries maxDelay backoffFactor maxRetries 0 initialDelay

/-- The sequence of waits performed when every invocation fails, starting from
delay `d`, capped at `maxDelay`, with `k` invocations remaining: the loop
sleeps between failures, so `k` remaining invocations produce `k - 1` waits. -/
def geomDelays (maxDelay backoffFactor : Nat) : Nat → Nat → List Nat
  | _, 0 => []
  | _, 1 => []
  | d, k + 2 => d :: geomDelays maxDelay backoffFactor (min (d * backoffFactor) maxDelay) (k + 1)

/-- Geometric sum 1 + f + f^2 + ... + f^(n-1) (the closed form
(f^n - 1)/(f - 1) of the spec, stated without division). -/
def geomSum (f : Nat) : Nat → Nat
  | 0 => 0
  | n + 1 => 1 + f * geomSum f n

/-! ## Shared event data model (interfaces/event.interface.ts) -/

/-- Tenant triple (header.tenant and the EncryptionContext fields). -/
structure TenantM where
  financialInstitutionId : String
  appId : String
  environment : String
deriving DecidableEq

/-- Encryption context passed to the key-management service
(interfaces/encryption.interface.ts). -/
structure EncryptionContextM where
  financialInstitutionId : String
  appId : String
  environment : String
deriving DecidableEq

/-- Geolocation in the event metadata context (optional, nullable). -/
structure GeolocationM where
  latitude : Int
  longitude : Int
  geoType : String

/-- payload.metadata.context fields. -/
structure EventMetadataContextM where
  deviceId : String
  ip_address : String
  user_agent : String
  hostname : String
  language : String
  geolocation : Option GeolocationM

/-- payload.metadata fields. -/
structure EventMetadataM where
  docker_container_id : String
  fi_id : String
  config_version : String
  context : EventMetadataContextM

/-- payload.activityBy fields. -/
structure ActivityInfoM where
  source : String
  identifier : String
  metadata : List (String × Json)

/-- Event header fields. -/
structure EventHeaderM where
  event_name : String
  product : String
  product_version : String
  event_version : String
  key_handle : String
  timestamp : String
  callback_ref : String
  alg : String
  typ : String
  tenant : TenantM

/-- Event payload; data is an arbitrary JSON value (a plain object when
encryption is disabled, an opaque encrypted string when enabled). -/
structure EventPayloadM where
  metadata : EventMetadataM
  data : Json
  activityBy : ActivityInfoM

/-- A NotificationEvent (the nested shape validated by event.schema.ts and
consumed by the lambda handler). -/
structure NotificationEventM where
  id : String
  header : EventHeaderM
  payload : EventPayloadM

/-- JSON serialization of a geolocation. -/
def GeolocationM.toJson (g : GeolocationM) : Json :=
  .obj [("latitude", .num g.latitude), ("longitude", .num g.longitude),
        ("type", .str (.raw g.geoType))]

/-- JSON serialization of a metadata context (geolocation included only when
present, since it is optional in the schema). -/
def EventMetadataContextM.toJson (c : EventMetadataContextM) : Json :=
  .obj ([("deviceId", .str (.raw c.deviceId)), ("ip_address", .str (.raw c.ip_address)),
         ("user_agent", .str (.raw c.user_agent)), ("hostname", .str (.raw c.hostname)),
         ("language", .str (.raw c.language))] ++
        (match c.geolocation with
         | some g => [("geolocation", g.toJson)]
         | none => []))

/-- JSON serialization of payload.metadata. -/
def EventMetadataM.toJson (m : EventMetadataM) : Json :=
  .obj [("docker_container_id", .str (.raw m.docker_container_id)),
        ("fi_id", .str (.raw m.fi_id)),
        ("config_version", .str (.raw m.config_version)),
        ("context", m.context.toJson)]

/-- JSON serialization of payload.activityBy. -/
def ActivityInfoM.toJson (a : ActivityInfoM) : Json :=
  .obj [("source", .str (.raw a.source)), ("identifier", .str (.raw a.identifier)),
        ("metadata", .obj a.metadata)]

/-- JSON serialization of header.tenant. -/
def TenantM.toJson (t : TenantM) : Json :=
  .obj [("financialInstitutionId", .str (.raw t.financialInstitutionId)),
        ("appId", .str (.raw t.appId)),
        ("environment", .str (.raw t.environment))]

/-- JSON serialization of the header. -/
def EventHeaderM.toJson (h : EventHeaderM) : Json :=
  .obj [("event_name", .str (.raw h.event_name)), ("product", .str (.raw h.product)),
        ("product_version", .str (.raw h.product_version)),
        ("event_version", .str (.raw h.event_version)),
        ("key_handle", .str (.raw h.key_handle)), ("timestamp", .str (.raw h.timestamp)),
        ("callback_ref", .str (.raw h.callback_ref)), ("alg", .str (.raw h.alg)),
        ("typ", .str (.raw h.typ)), ("tenant", h.tenant.toJson)]

/-- JSON serialization of the payload. -/
def EventPayloadM.toJson (p : EventPayloadM) : Json :=
  .obj [("metadata", p.metadata.toJson), ("data", p.data),
        ("activityBy", p.activityBy.toJson)]

/-- JSON serialization of a NotificationEvent (what JSON.parse of the
dispatched message body yields). -/
def NotificationEventM.toJson (e : NotificationEventM) : Json :=
  .obj [("id", .str (.raw e.id)), ("header", e.header.toJson),
        ("payload", e.payload.toJson)]

/-! ## Error model (errors of libs/core and part_024) -/

/-- NotificationErrorCode (part_024 lines 76-81). -/
inductive NotificationErrorCodeM where
  | TOPIC_NOT_CONFIGURED
  | PROVIDER_NOT_INITIALIZED
  | SEND_FAILED
  | INVALID_EVENT
deriving DecidableEq

/-- A NotificationError as thrown by the handler: its message and code. -/
structure NotifErrM where
  message : String
  errorCode : NotificationErrorCodeM
deriving DecidableEq

/-- NotificationError.invalidEvent (part_024 lines 154-165). -/
def invalidEventErr (details : String) : NotifErrM :=
  ⟨"Invalid notification event: " ++ details, .INVALID_EVENT⟩

/-- NotificationError.sendFailed (part_024 lines 137-149). -/
def sendFailedErr (innerMessage : String) : NotifErrM :=
  ⟨"Failed to send notification: " ++ innerMessage, .SEND_FAILED⟩

/-- ProviderErrorCode (part_024 lines 4-9). -/
inductive ProviderErrorCodeM where
  | CONFIG_MISSING
  | CONNECTION_FAILED
  | OPERATION_FAILED
  | INITIALIZATION_FAILED
deriving DecidableEq

/-- A ProviderError: its message, code, and the message of the original error
it wraps, when any. -/
structure ProviderErrM where
  message : String
  errorCode : ProviderErrorCodeM
  originalMessage : Option String
deriving DecidableEq

/-- ProviderError.configMissing (part_024 lines 27-38). -/
def configMissingErr (configKey providerName : String) : ProviderErrM :=
  ⟨"Missing " ++ configKey ++ " for provider " ++ providerName, .CONFIG_MISSING, none⟩

/-- ProviderError.operationFailed (part_024 lines 54-67). -/
def operationFailedErr (operation providerName : String) (originalMessage : Option String) :
    ProviderErrM :=
  ⟨"Failed to perform " ++ operation ++ " on provider " ++ providerName,
   .OPERATION_FAILED, originalMessage⟩

/-- A thrown JavaScript error in this pipeline: a plain Error, a
NotificationError or a ProviderError. -/
inductive JsErr where
  | plain (message : String)
  | notif (e : NotifErrM)
  | provider (e : ProviderErrM)
deriving DecidableEq

/-- The message carried by a thrown error (error.message). -/
def JsErr.message : JsErr → String
  | .plain m => m
  | .notif e => e.message
  | .provider e => e.message

/-! ## Transport providers (C3) -/

/-- ProviderConfig (NotificationProviderConfig): id, type, name, enabled and a
string-keyed config map. -/
structure ProviderCfgM where
  id : String
  cfgType : String
  name : String
  enabled : Bool
  config : List (String × String)

/-- JavaScript `a || b` over possibly-undefined strings, where the empty
string is falsy; yields none when both are falsy. -/
def firstTruthyStr (a b : Option String) : Option String :=
  match a with
  | some s => if s ≠ "" then some s else match b with
      | some t => if t ≠ "" then some t else none
      | none => none
  | none => match b with
      | some t => if t ≠ "" then some t else none
      | none => none

/-- The flat NotificationEvent shape used by SnsProviderAdapter (event.id,
event.type, event.version, event.source, event.tenant). -/
structure FlatEventM where
  id : String
  eventType : String
  version : String
  source : String
  tenant : TenantM

/-- The seven routing message attributes attached by both adapters. -/
def routingAttributes (eventId eventType eventVersion source : String) (tenant : TenantM) :
    List (String × String) :=
  [("eventId", eventId), ("eventType", eventType), ("eventVersion", eventVersion),
   ("source", source),
   ("financialInstitutionId", tenant.financialInstitutionId),
   ("appId", tenant.appId), ("environment", tenant.environment)]

/-- An SNS PublishCommand as built by SnsProviderAdapter.send: topic, the
serialized event as message body, routing attributes, and the FIFO ordering
and deduplication keys when the topic is FIFO. -/
structure PublishCommandM where
  topicArn : String
  message : JStr
  messageAttributes : List (String × String)
  messageGroupId : Option String
  messageDeduplicationId : Option String

/-- Response of a successful SNS publish. -/
structure SnsRespM where
  messageId : Option String
  sequenceNumber : Option String
deriving DecidableEq

/-- NotificationSendResult: the uniform outcome of a dispatch attempt. -/
structure SendResultM where
  success : Bool
  messageId : Option String
  error : Option String
  timestamp : String
  providerMessageId : Option String
  providerSequenceNumber : Option String
deriving DecidableEq

/-- Build the PublishCommand of SnsProviderAdapter.send (sns-provider.adapter.ts
lines 134-180): FIFO topics get MessageGroupId
fi-appId-eventType and MessageDeduplicationId event.id. -/
def mkPublishCommand (topicArn : String) (event : FlatEventM) : PublishCommandM :=
  let isFifoTopic := topicArn.endsWith ".fifo"
  { topicArn := topicArn
    message := .enc (.obj [("id", .str (.raw event.id)), ("type", .str (.raw event.eventType)),
      ("version", .str (.raw event.version)), ("source", .str (.raw event.source)),
      ("tenant", .obj [("financialInstitutionId", .str (.raw event.tenant.financialInstitutionId)),
        ("appId", .str (.raw event.tenant.appId)),
        ("environment", .str (.raw event.tenant.environment))])])
    messageAttributes := routingAttributes event.id event.eventType event.version
      event.source event.tenant
    messageGroupId := if isFifoTopic then
        some (event.tenant.financialInstitutionId ++ "-" ++ event.tenant.appId ++ "-" ++
          event.eventType)
      else none
    messageDeduplicationId := if isFifoTopic then some event.id else none }

/-- SnsProviderAdapter.send (sns-provider.adapter.ts lines 115-225).
The SNS transport is a parameter: `publish cmd n` is the outcome of the n-th
attempt to publish `cmd`.  Every failure path is caught and returned as a
SendResult with success false; nothing is thrown to the caller. -/
def snsProviderSend (envTopicArn : Option String) (now : String)
    (publish : PublishCommandM → Nat → Except String SnsRespM)
    (event : FlatEventM) (config : ProviderCfgM) : SendResultM :=
  match firstTruthyStr (config.config.lookup "topicArn") envTopicArn with
  | none =>
    { success := false, messageId := none,
      error := some "Missing topicArn in provider configuration and SNS_TOPIC_ARN environment variable",
      timestamp := now, providerMessageId := none, providerSequenceNumber := none }
  | some topicArn =>
    let command := mkPublishCommand topicArn event
    match (retryConnectionRun (publish command) 3 1000 30000 2 "AWS SNS Publish").result with
    | .error e =>
      { success := false, messageId := none, error := some e, timestamp := now,
        providerMessageId := none, providerSequenceNumber := none }
    | .ok resp =>
      { success := true, messageId := resp.messageId, error := none, timestamp := now,
        providerMessageId := resp.messageId, providerSequenceNumber := resp.sequenceNumber }

/-- An SQS SendMessageCommand as built by SqsProviderAdapter.send. -/
structure SendMessageCommandM where
  queueUrl : String
  messageBody : JStr
  messageAttributes : List (String × String)

/-- Response of a successful SQS send. -/
structure SqsRespM where
  messageId : Option String
  sequenceNumber : Option String
  md5OfMessageBody : Option String
deriving DecidableEq

/-- Build the SendMessageCommand of SqsProviderAdapter.send (aws-sns.provider.ts
lines 239-276): the serialized nested event with the routing attributes taken
from id, header.event_name, header.event_version, payload.activityBy.source
and header.tenant. -/
def mkSendMessageCommand (queueUrl : String) (event : NotificationEventM) :
    SendMessageCommandM :=
  { queueUrl := queueUrl
    messageBody := .enc event.toJson
    messageAttributes := routingAttributes event.id event.header.event_name
      event.header.event_version event.payload.activityBy.source event.header.tenant }

/-- SqsProviderAdapter.send (aws-sns.provider.ts lines 223-317).  The body of
the try block either throws ProviderError.configMissing, or throws the retry
exhaustion error, or returns a success result; the catch block wraps any
thrown error in ProviderError.operationFailed and rethrows it, so transport
failure surfaces to the caller as a thrown ProviderError, not as a
SendResult. -/
def sqsProviderSend (envQueueUrl : Option String) (now : String)
    (sendMsg : SendMessageCommandM → Nat → Except String SqsRespM)
    (event : NotificationEventM) (config : ProviderCfgM) :
    Except ProviderErrM SendResultM :=
  let inner : Except JsErr SendResultM :=
    match firstTruthyStr (config.config.lookup "queueUrl") envQueueUrl with
    | none => .error (.provider (configMissingErr "queueUrl" "AWS SQS"))
    | some queueUrl =>
      let command := mkSendMessageCommand queueUrl event
      match (retryConnectionRun (sendMsg command) 3 1000 30000 2 "AWS SQS Send").result with
      | .error e => .error (.plain e)
      | .ok resp =>
        .ok { success := true, messageId := resp.messageId, error := none, timestamp := now,
              providerMessageId := resp.messageId, providerSequenceNumber := resp.sequenceNumber }
  match inner with
  | .ok r => .ok r
  | .error e => .error (operationFailedErr "publish" "AWS SQS" (some e.message))

/-! ## Encryption boundary (kms-encryption.service.ts, C4) -/

/-- The EncryptCommand sent to the key-management service: key id, plaintext
and the encryption context, passed verbatim (kms-encryption.service.ts
lines 114-119). -/
structure EncryptCommandM where
  keyId : String
  plaintext : String
  encryptionContext : EncryptionContextM
deriving DecidableEq

/-- A ciphertext blob as returned by the key-management service.  Modelled from
the spec: the external key-management service contract (spec section 4.3 and
section 6) binds a ciphertext to the exact encryption context supplied at
encrypt time; decrypting under any other context fails.  The blob therefore
carries the plaintext, the binding context, and the key id. -/
structure KmsCiphertextM where
  plaintext : String
  context : EncryptionContextM
  keyId : String
deriving DecidableEq

/-- The DecryptCommand sent to the key-management service: ciphertext blob and
the encryption context, passed verbatim (kms-encryption.service.ts
lines 158-162). -/
structure DecryptCommandM where
  ciphertextBlob : KmsCiphertextM
  encryptionContext : EncryptionContextM
deriving DecidableEq

/-- Modelled from the spec: the external key-management service encrypt call
(always succeeds given a key, returning a context-bound blob). -/
def kmsBackendEncrypt (cmd : EncryptCommandM) : KmsCiphertextM :=
  ⟨cmd.plaintext, cmd.encryptionContext, cmd.keyId⟩

/-- Modelled from the spec: the external key-management service decrypt call;
fails unless the supplied context equals the context bound at encrypt time. -/
def kmsBackendDecrypt (cmd : DecryptCommandM) : Except String String :=
  if cmd.encryptionContext = cmd.ciphertextBlob.context then
    .ok cmd.ciphertextBlob.plaintext
  else
    .error "InvalidCiphertextException: encryption context does not match"

/-- KmsEncryptionService.encrypt (kms-encryption.service.ts lines 96-138):
resolve the effective key id (argument, falling back to the KMS_KEY_ID
environment variable, both under JS truthiness), fail without one, otherwise
send the EncryptCommand with the context verbatim through retryConnection
(maxRetries 3, initialDelay 1000) and base64-return the blob.  The returned
ciphertext string is modelled by the blob it encodes. -/
def kmsEncrypt (envKeyId : Option String) (data : String) (keyId : String)
    (context : EncryptionContextM) : Except String KmsCiphertextM :=
  match firstTruthyStr (some keyId) envKeyId with
  | none => .error "Missing KMS key ID. Please provide a key ID or set the KMS_KEY_ID environment variable."
  | some effectiveKeyId =>
    let command : EncryptCommandM := ⟨effectiveKeyId, data, context⟩
    (retryConnectionRun (fun _ => .ok (kmsBackendEncrypt command)) 3 1000 30000 2
      "AWS KMS Encrypt").result

/-- KmsEncryptionService.decrypt (kms-encryption.service.ts lines 151-181):
base64-decode the ciphertext, send the DecryptCommand with the context
verbatim through retryConnection (maxRetries 3, initialDelay 1000), and
return the plaintext string. -/
def kmsDecrypt (encryptedData : KmsCiphertextM) (context : EncryptionContextM) :
    Except String String :=
  let command : DecryptCommandM := ⟨encryptedData, context⟩
  (retryConnectionRun (fun _ => kmsBackendDecrypt command) 3 1000 30000 2
    "AWS KMS Decrypt").result

/-! ## Event Validator (validation.service.ts + schemas/event.schema.ts, C5)

The AJV validator compiled from notificationEventSchema, specialized to that
fixed schema.  Keywords present in the schema: type, required, properties,
additionalProperties, and nullable (on geolocation).  For each missing
required property AJV reports instancePath = the path of the object missing
the property and params.missingProperty = the property name.  The relative
order of errors for multi-error inputs is not relied on by any theorem. -/

/-- AJV error params for the keywords used by the schema. -/
inductive AjvParamsM where
  | requiredProp (missingProperty : String)
  | typeMismatch (expected : String)
  | additionalProp (propertyName : String)
deriving DecidableEq

/-- An AJV validation error. -/
structure AjvErrorM where
  instancePath : String
  keyword : String
  message : String
  params : AjvParamsM
deriving DecidableEq

/-- Child instance path (JSON pointer). -/
def childPath (p k : String) : String := p ++ "/" ++ k

/-- AJV type-keyword error. -/
def typeErrorAt (p expected : String) : AjvErrorM :=
  ⟨p, "type", "must be " ++ expected, .typeMismatch expected⟩

/-- AJV required-keyword error: reported at the path of the object that lacks
the property, naming it in params.missingProperty. -/
def requiredErrorAt (p missing : String) : AjvErrorM :=
  ⟨p, "required", "must have required property \x27" ++ missing ++ "\x27",
   .requiredProp missing⟩

/-- AJV additionalProperties-keyword error. -/
def additionalErrorAt (p propertyName : String) : AjvErrorM :=
  ⟨p, "additionalProperties", "must NOT have additional properties",
   .additionalProp propertyName⟩

/-- Whether an object has a key. -/
def hasKeyB (fields : List (String × Json)) (k : String) : Bool :=
  fields.any (fun f => f.1 == k)

/-- Errors of the required keyword for an object value. -/
def requiredErrorsAt (p : String) (fields : List (String × Json)) (req : List String) :
    List AjvErrorM :=
  req.filterMap (fun k => if hasKeyB fields k then none else some (requiredErrorAt p k))

/-- Errors of additionalProperties: false for an object value. -/
def additionalErrorsAt (p : String) (fields : List (String × Json)) (allowed : List String) :
    List AjvErrorM :=
  fields.filterMap (fun f => if allowed.contains f.1 then none else some (additionalErrorAt p f.1))

/-- Apply a property subschema to a property when present. -/
def validatePropAt (p : String) (fields : List (String × Json)) (k : String)
    (sub : String → Json → List AjvErrorM) : List AjvErrorM :=
  match fields.lookup k with
  | some j => sub (childPath p k) j
  | none => []

/-- Subschema { type: string }. -/
def validateStringAt (p : String) : Json → List AjvErrorM
  | .str _ => []
  | _ => [typeErrorAt p "string"]

/-- Subschema { type: number }. -/
def validateNumberAt (p : String) : Json → List AjvErrorM
  | .num _ => []
  | _ => [typeErrorAt p "number"]

/-- Subschema { type: object, required: [], additionalProperties: true }
(payload.data and activityBy.metadata). -/
def validateAnyObjectAt (p : String) : Json → List AjvErrorM
  | .obj _ => []
  | _ => [typeErrorAt p "object"]

/-- Geolocation subschema (type object, nullable true, latitude/longitude
number and type string all required, no additional properties). -/
def validateGeolocationAt (p : String) : Json → List AjvErrorM
  | .null => []
  | .obj fields =>
    requiredErrorsAt p fields ["latitude", "longitude", "type"] ++
    validatePropAt p fields "latitude" validateNumberAt ++
    validatePropAt p fields "longitude" validateNumberAt ++
    validatePropAt p fields "type" validateStringAt ++
    additionalErrorsAt p fields ["latitude", "longitude", "type"]
  | _ => [typeErrorAt p "object"]

/-- eventMetadataContextSchema. -/
def validateContextAt (p : String) : Json → List AjvErrorM
  | .obj fields =>
    requiredErrorsAt p fields ["deviceId", "ip_address", "user_agent", "hostname", "language"] ++
    validatePropAt p fields "deviceId" validateStringAt ++
    validatePropAt p fields "ip_address" validateStringAt ++
    validatePropAt p fields "user_agent" validateStringAt ++
    validatePropAt p fields "hostname" validateStringAt ++
    validatePropAt p fields "language" validateStringAt ++
    validatePropAt p fields "geolocation" validateGeolocationAt ++
    additionalErrorsAt p fields
      ["deviceId", "ip_address", "user_agent", "hostname", "language", "geolocation"]
  | _ => [typeErrorAt p "object"]

/-- eventMetadataSchema. -/
def validateMetadataAt (p : String) : Json → List AjvErrorM
  | .obj fields =>
    requiredErrorsAt p fields ["docker_container_id", "fi_id", "config_version", "context"] ++
    validatePropAt p fields "docker_container_id" validateStringAt ++
    validatePropAt p fields "fi_id" validateStringAt ++
    validatePropAt p fields "config_version" validateStringAt ++
    validatePropAt p fields "context" validateContextAt ++
    additionalErrorsAt p fields ["docker_container_id", "fi_id", "config_version", "context"]
  | _ => [typeErrorAt p "object"]

/-- activityInfoSchema. -/
def validateActivityInfoAt (p : String) : Json → List AjvErrorM
  | .obj fields =>
    requiredErrorsAt p fields ["source", "identifier", "metadata"] ++
    validatePropAt p fields "source" validateStringAt ++
    validatePropAt p fields "identifier" validateStringAt ++
    validatePropAt p fields "metadata" validateAnyObjectAt ++
    additionalErrorsAt p fields ["source", "identifier", "metadata"]
  | _ => [typeErrorAt p "object"]

/-- Tenant subschema inside eventHeaderSchema. -/
def validateTenantAt (p : String) : Json → List AjvErrorM
  | .obj fields =>
    requiredErrorsAt p fields ["financialInstitutionId", "appId", "environment"] ++
    validatePropAt p fields "financialInstitutionId" validateStringAt ++
    validatePropAt p fields "appId" validateStringAt ++
    validatePropAt p fields "environment" validateStringAt ++
    additionalErrorsAt p fields ["financialInstitutionId", "appId", "environment"]
  | _ => [typeErrorAt p "object"]

/-- List of the header schema property names. -/
def headerPropNames : List String :=
  ["event_name", "product", "product_version", "event_version", "key_handle",
   "timestamp", "callback_ref", "alg", "typ", "tenant"]

/-- eventHeaderSchema. -/
def validateHeaderAt (p : String) : Json → List AjvErrorM
  | .obj fields =>
    requiredErrorsAt p fields headerPropNames ++
    validatePropAt p fields "event_name" validateStringAt ++
    validatePropAt p fields "product" validateStringAt ++
    validatePropAt p fields "product_version" validateStringAt ++
    validatePropAt p fields "event_version" validateStringAt ++
    validatePropAt p fields "key_handle" validateStringAt ++
    validatePropAt p fields "timestamp" validateStringAt ++
    validatePropAt p fields "callback_ref" validateStringAt ++
    validatePropAt p fields "alg" validateStringAt ++
    validatePropAt p fields "typ" validateStringAt ++
    validatePropAt p fields "tenant" validateTenantAt ++
    additionalErrorsAt p fields headerPropNames
  | _ => [typeErrorAt p "object"]

/-- eventPayloadSchema. -/
def validatePayloadAt (p : String) : Json → List AjvErrorM
  | .obj fields =>
    requiredErrorsAt p fields ["metadata", "data", "activityBy"] ++
    validatePropAt p fields "metadata" validateMetadataAt ++
    validatePropAt p fields "data" validateAnyObjectAt ++
    validatePropAt p fields "activityBy" validateActivityInfoAt ++
    additionalErrorsAt p fields ["metadata", "data", "activityBy"]
  | _ => [typeErrorAt p "object"]

/-- notificationEventSchema (the root schema compiled by ValidationService). -/
def ajvValidate : Json → List AjvErrorM
  | .obj fields =>
    requiredErrorsAt "" fields ["id", "header", "payload"] ++
    validatePropAt "" fields "id" validateStringAt ++
    validatePropAt "" fields "header" validateHeaderAt ++
    validatePropAt "" fields "payload" validatePayloadAt ++
    additionalErrorsAt "" fields ["id", "header", "payload"]
  | j => [typeErrorAt "" (match j with
      | .null => "object" | .bool _ => "object" | .num _ => "object"
      | .str _ => "object" | .arr _ => "object" | .obj _ => "object")]

/-- An ApplicationError as produced by ValidationService.validateEvent
(validation.service.ts lines 50-62): the EVENT_VALIDATION_FAILED constant with
the AJV message appended, and data { path = instancePath, keyword, params }. -/
structure ApplicationErrorM where
  errorCode : String
  message : String
  errorType : String
  errorCategory : String
  messageKey : String
  path : String
  keyword : String
  params : AjvParamsM
deriving DecidableEq

/-- Map one AJV error to an ApplicationError (validation.service.ts
lines 51-61, using ApplicationErrors[EVENT_VALIDATION_FAILED]). -/
def mapAjvError (e : AjvErrorM) : ApplicationErrorM :=
  { errorCode := "NOT2002"
    message := "Event validation failed: " ++ e.message
    errorType := "BUSINESS_LOGIC"
    errorCategory := "SERVER"
    messageKey := "error.businessLogic.NOT2002.eventValidationFailed"
    path := e.instancePath
    keyword := e.keyword
    params := e.params }

/-- ValidationService.validateEvent (validation.service.ts lines 37-70): run
the compiled validator and map each AJV error; returns a list and never
throws (the try/catch makes even an internal failure surface as a pushed
error, and the embedding is a total function). -/
def validateEvent (event : Json) : List ApplicationErrorM :=
  (ajvValidate event).map mapAjvError

/-- Remove key k from an object field list. -/
def eraseKey (fields : List (String × Json)) (k : String) : List (String × Json) :=
  fields.filter (fun f => f.1 ≠ k)

/-- Remove field k from the object reached by following the given key path. -/
def eraseAt : List String → String → Json → Json
  | [], k, .obj fields => .obj (eraseKey fields k)
  | [], _, j => j
  | s :: rest, k, .obj fields =>
    .obj (fields.map (fun f => if f.1 == s then (f.1, eraseAt rest k f.2) else f))
  | _ :: _, _, j => j

/-- All required fields of the notification event schema, as (path to the
containing object, field name). -/
def requiredFieldPaths : List (List String × String) :=
  [([], "id"), ([], "header"), ([], "payload"),
   (["header"], "event_name"), (["header"], "product"), (["header"], "product_version"),
   (["header"], "event_version"), (["header"], "key_handle"), (["header"], "timestamp"),
   (["header"], "callback_ref"), (["header"], "alg"), (["header"], "typ"),
   (["header"], "tenant"),
   (["header", "tenant"], "financialInstitutionId"), (["header", "tenant"], "appId"),
   (["header", "tenant"], "environment"),
   (["payload"], "metadata"), (["payload"], "data"), (["payload"], "activityBy"),
   (["payload", "metadata"], "docker_container_id"), (["payload", "metadata"], "fi_id"),
   (["payload", "metadata"], "config_version"), (["payload", "metadata"], "context"),
   (["payload", "metadata", "context"], "deviceId"),
   (["payload", "metadata", "context"], "ip_address"),
   (["payload", "metadata", "context"], "user_agent"),
   (["payload", "metadata", "context"], "hostname"),
   (["payload", "metadata", "context"], "language"),
   (["payload", "activityBy"], "source"), (["payload", "activityBy"], "identifier"),
   (["payload", "activityBy"], "metadata")]

/-- Instance path (JSON pointer) of an object reached by a key path. -/
def instancePathOf (segs : List String) : String :=
  segs.foldl (fun acc s => acc ++ "/" ++ s) ""

/-- Whether the error list holds a required-keyword error for field f of the
object at the given path, naming f in params.missingProperty. -/
def hasRequiredErrorFor (errs : List ApplicationErrorM) (p : List String) (f : String) : Bool :=
  errs.any (fun e => e.keyword == "required" && e.path == instancePathOf p &&
    e.params == AjvParamsM.requiredProp f)

/-- Whether one character list starts with another. -/
def listStartsWith : List Char → List Char → Bool
  | _, [] => true
  | [], _ :: _ => false
  | a :: as, b :: bs => a == b && listStartsWith as bs

/-- Whether a character list occurs inside another. -/
def listContainsSub : List Char → List Char → Bool
  | hay, needle =>
    listStartsWith hay needle ||
      (match hay with
       | [] => false
       | _ :: t => listContainsSub t needle)

/-- Whether a reported path string mentions a field name (the field name occurs
in the path), the reading of the claim that the error path identifies the
missing field. -/
def pathMentions (path f : String) : Bool :=
  listContainsSub path.toList f.toList

/-! ## Event Handler (notification.handler.ts lines 1-675, C6 and C7) -/

/-- Tenant encryption feature configuration (the encryption part of
TenantConfig; SAMPLE_TENANT_CONFIG has enabled false). -/
structure TenantEncryptionCfgM where
  enabled : Bool
  kmsKeyId : Option String

/-- The encryption feature flags of SAMPLE_TENANT_CONFIG
(notification.handler.ts lines 64-79). -/
def sampleTenantEncryptionCfg : TenantEncryptionCfgM :=
  ⟨false, some "default-key-id"⟩

/-- Strict equality of the Type field with the string literal Notification. -/
def isNotificationTypeVal : Option Json → Bool
  | some (.str (.raw s)) => s == "Notification"
  | _ => false

/-- The envelope test of parseNotificationEvent (line 339):
snsMessage.Type === Notification and snsMessage.Message truthy. -/
def envelopeShaped (m : Json) : Bool :=
  isNotificationTypeVal (jsGet m "Type") && jsTruthyOpt (jsGet m "Message")

/-- JSON.parse applied to an arbitrary JS value: strings parse as such;
numbers, booleans and null coerce to source text that parses back to the same
value; arrays and objects coerce to text that is not valid JSON
(approximation; no theorem evaluates this branch). -/
def jsonParseVal : Json → Except String Json
  | .str s => jsonParseJS s
  | .num n => .ok (.num n)
  | .bool b => .ok (.bool b)
  | .null => .ok .null
  | _ => .error "Unexpected token in JSON"

/-- Converted SQS message attribute (SQSMessageAttributes entry after
convertMessageAttributes). -/
structure ConvertedAttrM where
  dataType : String
  stringValue : Option String
  binaryValue : Option String
deriving DecidableEq

/-- The synthetic SQSRecord attributes built by convertToSQSRecord
(sqs-subscriber.service.ts lines 120-127). -/
structure SQSRecordAttributesM where
  approximateReceiveCount : String
  sentTimestamp : String
  senderId : String
  approximateFirstReceiveTimestamp : String
deriving DecidableEq

/-- The synthetic SQSRecord handed to the Event Handler. -/
structure SQSRecordM where
  messageId : String
  receiptHandle : String
  body : JStr
  attributes : SQSRecordAttributesM
  messageAttributes : List (String × ConvertedAttrM)
  md5OfBody : String
  eventSource : String
  eventSourceARN : String
  awsRegion : String

/-- NotificationHandler.parseSnsMessage (lines 307-319): JSON.parse of the
record body; a parse failure throws NotificationError.invalidEvent. -/
def parseSnsMessageM (record : SQSRecordM) : Except JsErr Json :=
  match jsonParseJS record.body with
  | .ok v => .ok v
  | .error m =>
    .error (.notif (invalidEventErr ("Failed to parse SNS message envelope as JSON: " ++ m)))

/-- NotificationHandler.parseNotificationEvent (lines 326-361): unwrap the
inner Message when the body is a pub/sub Notification envelope, else treat the
body itself as the event.  Member access on null throws inside the try and
surfaces as a plain Error. -/
def parseNotificationEventM (snsMessage : Json) : Except JsErr Json :=
  match snsMessage with
  | .null => .error (.plain "Failed to parse notification event: Cannot read properties of null")
  | m =>
    if envelopeShaped m then
      match jsonParseVal ((jsGet m "Message").getD .null) with
      | .ok v => .ok v
      | .error em => .error (.plain ("Failed to parse notification event: " ++ em))
    else
      .ok m

/-- Throw the given NotificationError when the condition is falsy. -/
def checkThat (cond : Bool) (e : NotifErrM) : Except JsErr Unit :=
  if cond then .ok () else .error (.notif e)

/-- First listed field that is not truthy on the object (the for-loops of
validateNotificationEvent throw at the first missing field). -/
def firstMissingField (o : Option Json) (fields : List String) : Option String :=
  fields.find? (fun f => !(jsTruthyOpt (jsGetO o f)))

/-- Throw for the first missing field, with the given message prefix. -/
def checkFields (o : Option Json) (fields : List String) (msgPrefix : String) :
    Except JsErr Unit :=
  match firstMissingField o fields with
  | some f => .error (.notif (invalidEventErr (msgPrefix ++ f)))
  | none => .ok ()

/-- NotificationHandler.validateNotificationEvent (lines 127-261): truthiness
checks over the event structure, throwing NotificationError.invalidEvent at
the first missing piece. -/
def validateNotificationEventJsM (event : Json) : Except JsErr Unit := do
  checkThat (jsTruthy event) (invalidEventErr "Notification event is null or undefined")
  checkThat (jsTruthyOpt (jsGet event "id")) (invalidEventErr "Missing required field: id")
  checkThat (jsTruthyOpt (jsGet event "header")) (invalidEventErr "Missing required field: header")
  checkThat (jsTruthyOpt (jsGet event "payload")) (invalidEventErr "Missing required field: payload")
  checkFields (jsGet event "header") headerPropNames "Missing required header field: "
  checkFields (jsGetO (jsGet event "header") "tenant")
    ["financialInstitutionId", "appId", "environment"] "Missing required tenant field: "
  checkThat (jsTruthyOpt (jsGetO (jsGet event "payload") "metadata"))
    (invalidEventErr "Missing required payload field: metadata")
  checkThat (jsTruthyOpt (jsGetO (jsGet event "payload") "data"))
    (invalidEventErr "Missing required payload field: data")
  checkThat (jsTruthyOpt (jsGetO (jsGet event "payload") "activityBy"))
    (invalidEventErr "Missing required payload field: activityBy")
  checkFields (jsGetO (jsGet event "payload") "metadata")
    ["docker_container_id", "fi_id", "config_version", "context"]
    "Missing required metadata field: "
  checkFields (jsGetO (jsGetO (jsGet event "payload") "metadata") "context")
    ["deviceId", "ip_address", "user_agent", "hostname", "language"]
    "Missing required metadata context field: "
  checkFields (jsGetO (jsGet event "payload") "activityBy")
    ["source", "identifier", "metadata"] "Missing required activityBy field: "

/-- The encryption context the handler derives from header.tenant
(decryptAndParsePayload lines 398-403); field values are taken from the event
as JSON values. -/
structure EncCtxJ where
  financialInstitutionId : Json
  appId : Json
  environment : Json

/-- Derive the encryption context from the event (lines 398-403). -/
def tenantCtxOf (event : Json) : EncCtxJ :=
  let tenant := jsGetO (jsGet event "header") "tenant"
  ⟨(jsGetO tenant "financialInstitutionId").getD .null,
   (jsGetO tenant "appId").getD .null,
   (jsGetO tenant "environment").getD .null⟩

/-- The injected ENCRYPTION_SERVICE decrypt, as seen by the handler: given the
payload.data value and the derived context, return the decrypted plaintext
string or fail. -/
def DecryptFn : Type := Json → EncCtxJ → Except String JStr

/-- NotificationHandler.decryptAndParsePayload (lines 395-429).  The inner
JSON.parse failure throws NotificationError.invalidEvent inside the outer try,
so the outer catch wraps both decrypt failures and parse failures in
NotificationError.sendFailed. -/
def decryptAndParsePayloadM (dec : DecryptFn) (event : Json) : Except JsErr Json :=
  let encryptionContext := tenantCtxOf event
  let dataVal := (jsGetO (jsGet event "payload") "data").getD .null
  match dec dataVal encryptionContext with
  | .error m => .error (.notif (sendFailedErr m))
  | .ok decrypted =>
    match jsonParseJS decrypted with
    | .ok parsed => .ok parsed
    | .error em =>
      .error (.notif (sendFailedErr
        ("Invalid notification event: Failed to parse decrypted payload as JSON: " ++ em)))

/-- NotificationHandler.processPayload (lines 368-388): with encryption
disabled the payload is wrapped as { data: payload.data } unchanged; with
encryption enabled it is decrypted and parsed. -/
def processPayloadM (cfg : TenantEncryptionCfgM) (dec : DecryptFn) (event : Json) :
    Except JsErr Json :=
  if !cfg.enabled then
    .ok (.obj [("data", (jsGetO (jsGet event "payload") "data").getD .null)])
  else
    decryptAndParsePayloadM dec event

/-- A call to the Salesforce event sink: the event type value and the
serialized enriched payload. -/
structure SinkCallM where
  eventType : Json
  data : JStr

/-- The injected SALESFORCE_EVENT_SERVICE sendNotificationEvent. -/
def SinkFn : Type := SinkCallM → Except String Unit

/-- NotificationHandler.processNotification (lines 453-489) with
processSalesforceCaseCreate (496-521) and processApplicationUpdate (528-578):
route on header.event_name; the create action wraps a sink failure in a plain
Error, the update action wraps it in NotificationError.sendFailed; unknown
event names are logged and are a no-op. -/
def processNotificationM (sink : SinkFn) (event : Json) : Except JsErr Unit :=
  match jsGetO (jsGet event "header") "event_name" with
  | some (.str (.raw s)) =>
    if s == "com.tyfone.nao.application.create" then
      match sink ⟨.str (.raw s), .enc event⟩ with
      | .ok _ => .ok ()
      | .error m => .error (.plain ("Failed to process Salesforce case creation: " ++ m))
    else if s == "com.tyfone.nao.application.update" then
      match sink ⟨.str (.raw s), .enc event⟩ with
      | .ok _ => .ok ()
      | .error m => .error (.notif (sendFailedErr m))
    else .ok ()
  | _ => .ok ()

/-- NotificationHandler.processRecord (lines 268-288): parse, unwrap, validate,
decrypt, dispatch; any failure is logged and rethrown unchanged. -/
def processRecordM (cfg : TenantEncryptionCfgM) (dec : DecryptFn) (sink : SinkFn)
    (record : SQSRecordM) : Except JsErr Unit := do
  let snsMessage ← parseSnsMessageM record
  let notificationEvent ← parseNotificationEventM snsMessage
  validateNotificationEventJsM notificationEvent
  let _payload ← processPayloadM cfg dec notificationEvent
  processNotificationM sink notificationEvent

/-- NotificationHandler.processSqsEvent (lines 105-119): process each record in
order; a record failure propagates (the loop awaits each record). -/
def processSqsEventM (cfg : TenantEncryptionCfgM) (dec : DecryptFn) (sink : SinkFn) :
    List SQSRecordM → Except JsErr Unit
  | [] => .ok ()
  | r :: rest => do
    processRecordM cfg dec sink r
    processSqsEventM cfg dec sink rest

/-- The pub/sub notification envelope of the claim:
{ Type: Notification, Message: serialized event }. -/
def mkNotificationEnvelope (e : Json) : Json :=
  .obj [("Type", .str (.raw "Notification")), ("Message", .str (.enc e))]

/-- A synthetic record carrying the given body (the handler pipeline reads only
the body; the other fields are logging metadata). -/
def recordWithBody (body : JStr) : SQSRecordM :=
  { messageId := "m-1", receiptHandle := "rh-1", body := body
    attributes := ⟨"1", "0", "local-sender", "0"⟩
    messageAttributes := [], md5OfBody := "", eventSource := "aws:sqs"
    eventSourceARN := "queue-url", awsRegion := "us-east-1" }

/-! ## Queue Consumer (sqs-subscriber.service.ts, C1, C9, C10) -/

/-- An AWS SDK MessageAttributeValue. -/
structure MessageAttributeValueM where
  dataType : Option String
  stringValue : Option String
  binaryValue : Option (List Nat)

/-- A raw SQS Message as returned by ReceiveMessageCommand. -/
structure SqsMessageM where
  messageId : Option String
  receiptHandle : Option String
  body : Option JStr
  md5OfBody : Option String
  attributes : List (String × String)
  messageAttributes : List (String × MessageAttributeValueM)

/-- Stand-in for base64 encoding of a binary attribute value (any injective
encoding; the pipeline never decodes it). -/
def base64Encode (bytes : List Nat) : String :=
  "base64:" ++ toString bytes

/-- SqsSubscriberService.convertMessageAttributes (lines 89-108): keep entries
whose DataType is truthy, converting any binary value to base64. -/
def convertMessageAttributesM (attrs : List (String × MessageAttributeValueM)) :
    List (String × ConvertedAttrM) :=
  attrs.filterMap (fun kv =>
    match kv.2.dataType with
    | some dt => if dt ≠ "" then
        some (kv.1, ⟨dt, kv.2.stringValue, kv.2.binaryValue.map base64Encode⟩)
      else none
    | none => none)

/-- JavaScript `a || d` over an optional string with the empty string falsy. -/
def orDefaultStr (a : Option String) (d : String) : String :=
  match a with
  | some s => if s ≠ "" then s else d
  | none => d

/-- JavaScript `body || empty` for the message body. -/
def jstrOrEmpty (a : Option JStr) : JStr :=
  match a with
  | some s => if jstrTruthy s then s else .raw ""
  | none => .raw ""

/-- SqsSubscriberService.convertToSQSRecord (lines 113-140): the synthetic
SQSRecord; ApproximateReceiveCount is the literal string 1, the timestamps
fall back to Date.now() (parameter now), and eventSourceARN is the queue
URL. -/
def convertToSQSRecordM (awsRegion now : String) (message : SqsMessageM)
    (queueUrl : String) : SQSRecordM :=
  { messageId := orDefaultStr message.messageId "default-id"
    receiptHandle := orDefaultStr message.receiptHandle ""
    body := jstrOrEmpty message.body
    attributes :=
      { approximateReceiveCount := "1"
        sentTimestamp := orDefaultStr (message.attributes.lookup "SentTimestamp") now
        senderId := orDefaultStr (message.attributes.lookup "SenderId") "local-sender"
        approximateFirstReceiveTimestamp :=
          orDefaultStr (message.attributes.lookup "ApproximateFirstReceiveTimestamp") now }
    messageAttributes := convertMessageAttributesM message.messageAttributes
    md5OfBody := orDefaultStr message.md5OfBody ""
    eventSource := "aws:sqs"
    eventSourceARN := queueUrl
    awsRegion := awsRegion }

/-- A DeleteMessageCommand issued after successful processing (lines 173-178):
queue URL and the receipt handle of the raw message. -/
structure DeleteCommandM where
  queueUrl : String
  receiptHandle : Option String

/-- Outcome of processing one received batch: the records handed to the
handler (one invocation per message, in receipt order), the delete commands
issued, and the number of per-message failures logged. -/
structure PollOutcomeM where
  handledRecords : List SQSRecordM
  deleteCommands : List DeleteCommandM
  errorsLogged : Nat

/-- The per-message loop of SqsSubscriberService.pollQueue (lines 159-185):
convert the message, invoke the handler with a single-record SQSEvent, delete
on success; on failure log and continue with the next message. -/
def pollQueueBatch (handler : List SQSRecordM → Except JsErr Unit)
    (awsRegion now queueUrl : String) : List SqsMessageM → PollOutcomeM
  | [] => ⟨[], [], 0⟩
  | message :: rest =>
    let sqsRecord := convertToSQSRecordM awsRegion now message queueUrl
    let tail := pollQueueBatch handler awsRegion now queueUrl rest
    match handler [sqsRecord] with
    | .ok _ =>
      ⟨sqsRecord :: tail.handledRecords,
       ⟨queueUrl, message.receiptHandle⟩ :: tail.deleteCommands,
       tail.errorsLogged⟩
    | .error _ =>
      ⟨sqsRecord :: tail.handledRecords, tail.deleteCommands, tail.errorsLogged + 1⟩

/-- SqsSubscriberService dev-mode test (lines 33-35): NODE_ENV equal to
development or dev. -/
def isDevOf (nodeEnv : Option String) : Bool :=
  nodeEnv == some "development" || nodeEnv == some "dev"

/-- SqsSubscriberService.startProcessing (lines 67-78): return immediately if
already processing; set the flag; enter the poll loop only in dev mode.  The
loop has no internal exit, so the number of poll cycles run is the number of
scheduler steps until an external stop (parameter fuel).  Returns (number of
poll cycles run, the isProcessing flag afterwards). -/
def startProcessingM (nodeEnv : Option String) (isProcessing : Bool) (fuel : Nat) :
    Nat × Bool :=
  if isProcessing then (0, true)
  else if isDevOf nodeEnv then (fuel, true)
  else (0, true)

/-! ## Dispatch Router provider factory (part_021, C8) -/

/-- Supported provider types (NotificationProviderType, part_021 lines 11-14). -/
inductive NotificationProviderTypeM where
  | AWS_SNS
deriving DecidableEq

/-- An INotificationProvider instance, identified by its provider name and an
identity token distinguishing distinct constructions. -/
structure ProviderInstanceM where
  providerName : String
  instanceId : Nat
deriving DecidableEq

/-- The factory state: the per-type instance cache (the providers Map). -/
structure FactoryStateM where
  providers : List (NotificationProviderTypeM × ProviderInstanceM)

/-- NotificationProviderFactory.getProvider (part_021 lines 32-63): return the
cached instance if present; otherwise select the injected AwsSnsProvider,
initialize it, cache it and return it.  The Bool records whether
provider.initialize ran during this call (initialization is modelled as
succeeding; AwsSnsProvider.initialize only constructs the SNS client). -/
def getProviderM (awsSnsProvider : ProviderInstanceM) (t : NotificationProviderTypeM)
    (st : FactoryStateM) : ProviderInstanceM × FactoryStateM × Bool :=
  match st.providers.lookup t with
  | some existingProvider => (existingProvider, st, false)
  | none =>
    match t with
    | .AWS_SNS => (awsSnsProvider, ⟨(t, awsSnsProvider) :: st.providers⟩, true)

/-! ## Auxiliary definitions for the statements -/

/-- Whether an Except is a success (the handler invocation completed without
throwing). -/
def isOkE {ε α : Type} : Except ε α → Bool
  | .ok _ => true
  | .error _ => false

/-- The spec error taxonomy (spec section 7). -/
inductive SpecErrorClassM where
  | validation
  | configuration
  | transient
  | decryption
  | delivery
deriving DecidableEq

/-- Modelled from the spec: section 7 assigns the error codes that consumer-side
processing can throw to the taxonomy classes.  INVALID_EVENT
(NotificationError.invalidEvent) is a validation error; TOPIC_NOT_CONFIGURED
and PROVIDER_NOT_INITIALIZED are configuration errors; SEND_FAILED
(NotificationError.sendFailed, the constructor for sink/delivery failures) is
a sink/delivery error.  No error code of the code base denotes the spec
Decryption class. -/
def specClassOf : NotificationErrorCodeM → SpecErrorClassM
  | .INVALID_EVENT => .validation
  | .TOPIC_NOT_CONFIGURED => .configuration
  | .PROVIDER_NOT_INITIALIZED => .configuration
  | .SEND_FAILED => .delivery

/-- A concrete fully-populated notification event used for witnesses. -/
def baseEvent : NotificationEventM :=
  { id := "evt-1"
    header :=
      { event_name := "com.tyfone.nao.application.create"
        product := "nao", product_version := "1.0", event_version := "1"
        key_handle := "kh-1", timestamp := "2024-01-01T00:00:00Z"
        callback_ref := "cb", alg := "AES256", typ := "json"
        tenant := ⟨"fi1", "app1", "prod"⟩ }
    payload :=
      { metadata :=
          { docker_container_id := "dock-1", fi_id := "fi1", config_version := "1"
            context :=
              { deviceId := "dev-1", ip_address := "127.0.0.1", user_agent := "ua"
                hostname := "host", language := "en", geolocation := none } }
        data := .obj [("k", .str (.raw "v"))]
        activityBy := { source := "api", identifier := "user-1", metadata := [] } } }

/-- The base event with payload.data replaced by an opaque encrypted string
(the shape of an event dispatched with encryption enabled). -/
def encEvent : NotificationEventM :=
  { baseEvent with payload :=
      { baseEvent.payload with data := .str (.raw "AQICAHg-ciphertext") } }

/-- A concrete event for the flat SnsProviderAdapter shape. -/
def sampleFlatEvent : FlatEventM :=
  ⟨"evt-1", "user.update", "1", "api", ⟨"fi1", "app1", "prod"⟩⟩

/-- A decrypt stand-in that always succeeds with a fixed plaintext. -/
def okDecryptFn : DecryptFn := fun _ _ => .ok (.enc (.obj [("ok", .bool true)]))

/-- A sink stand-in that always succeeds. -/
def okSinkFn : SinkFn := fun _ => .ok ()

/-! ## Theorems -/

/-- C1: for every batch received in one poll, the consumer processes the
messages sequentially (one handler invocation per message, in receipt order,
regardless of other failures) and issues a delete command for a message if and
only if the handler invocation for that message completed without throwing;
a failing message is never deleted and does not prevent its siblings from
being processed and deleted. -/
theorem pollQueue_per_message_isolation
    (handler : List SQSRecordM → Except JsErr Unit)
    (awsRegion now queueUrl : String) (messages : List SqsMessageM) :
    (pollQueueBatch handler awsRegion now queueUrl messages).handledRecords =
      messages.map (fun m => convertToSQSRecordM awsRegion now m queueUrl) ∧
    (pollQueueBatch handler awsRegion now queueUrl messages).deleteCommands =
      (messages.filter
        (fun m => isOkE (handler [convertToSQSRecordM awsRegion now m queueUrl]))).map
        (fun m => ⟨queueUrl, m.receiptHandle⟩) := by
  induction messages with
  | nil => exact ⟨rfl, rfl⟩
  | cons m rest ih =>
    obtain ⟨ih1, ih2⟩ := ih
    cases h : handler [convertToSQSRecordM awsRegion now m queueUrl] with
    | ok v => simp [pollQueueBatch, h, isOkE, ih1, ih2, List.filter_cons]
    | error e => simp [pollQueueBatch, h, isOkE, ih1, ih2, List.filter_cons]

/-- C8 (theorem): a second getProvider call with the same provider type
returns the identical provider instance out of the per-type cache, leaves the
cache unchanged and runs no initialization, so at most one instance per
requested type is ever created. -/
theorem getProvider_identity_stable (awsSnsProvider p : ProviderInstanceM)
    (t : NotificationProviderTypeM) (st st2 : FactoryStateM) (b : Bool)
    (h : getProviderM awsSnsProvider t st = (p, st2, b)) :
    getProviderM awsSnsProvider t st2 = (p, st2, false) := by
  unfold getProviderM at h ⊢
  cases hl : st.providers.lookup t with
  | some q =>
    rw [hl] at h
    simp only [Prod.mk.injEq] at h
    obtain ⟨rfl, rfl, rfl⟩ := h
    rw [hl]
  | none =>
    rw [hl] at h
    cases t
    simp only [Prod.mk.injEq] at h
    obtain ⟨rfl, rfl, rfl⟩ := h
    simp [List.lookup]

/-- C8 (witness): starting from an empty cache, the first call constructs and
caches the injected AwsSnsProvider and the second call returns the identical
instance without initializing anything. -/
theorem getProvider_identity_stable_witness :
    getProviderM ⟨"AWS-SNS", 0⟩ .AWS_SNS ⟨[(.AWS_SNS, ⟨"AWS-SNS", 0⟩)]⟩ =
      (⟨"AWS-SNS", 0⟩, ⟨[(.AWS_SNS, ⟨"AWS-SNS", 0⟩)]⟩, false) :=
  getProvider_identity_stable ⟨"AWS-SNS", 0⟩ ⟨"AWS-SNS", 0⟩ .AWS_SNS ⟨[]⟩
    ⟨[(.AWS_SNS, ⟨"AWS-SNS", 0⟩)]⟩ true rfl

/-- C9 (counterexample): the receive count of the synthetic record is not
monotonically assigned across successive deliveries of the same message: the
conversion hard-codes ApproximateReceiveCount to the string 1, even when the
raw message's own attributes carry a larger ApproximateReceiveCount from the
transport, so the count on a redelivery never exceeds the count on the first
delivery. -/
theorem convertToSQSRecord_receiveCount_not_monotonic :
    (convertToSQSRecordM "us-east-1" "t0"
      ⟨some "id-1", some "rh-1", some (.raw "b"), none, [], []⟩ "q").attributes.approximateReceiveCount = "1" ∧
    (convertToSQSRecordM "us-east-1" "t1"
      ⟨some "id-1", some "rh-1", some (.raw "b"), none,
        [("ApproximateReceiveCount", "2")], []⟩ "q").attributes.approximateReceiveCount = "1" ∧
    ("1" : String) = "1" := by
  exact ⟨rfl, rfl, rfl⟩

/-- C9 (amended): the synthetic SQSRecord carries the raw message's body and
its converted message attributes, and carries the constant receive count 1
(not a monotonically increasing one). -/
theorem convertToSQSRecord_fields (awsRegion now : String) (message : SqsMessageM)
    (queueUrl : String) (b : JStr) (hb : message.body = some b)
    (htr : jstrTruthy b = true) :
    (convertToSQSRecordM awsRegion now message queueUrl).body = b ∧
    (convertToSQSRecordM awsRegion now message queueUrl).messageAttributes =
      convertMessageAttributesM message.messageAttributes ∧
    (convertToSQSRecordM awsRegion now message queueUrl).attributes.approximateReceiveCount
      = "1" ∧
    (convertToSQSRecordM awsRegion now message queueUrl).eventSourceARN = queueUrl := by
  refine ⟨?_, rfl, rfl, rfl⟩
  simp [convertToSQSRecordM, jstrOrEmpty, hb, htr]

/-- C9 (witness for the amended theorem). -/
theorem convertToSQSRecord_fields_witness :
    (⟨some "id-1", some "rh-1", some (.raw "b"), none, [], []⟩ : SqsMessageM).body
        = some (.raw "b") ∧
    jstrTruthy (.raw "b") = true ∧
    (convertToSQSRecordM "us-east-1" "t0"
      ⟨some "id-1", some "rh-1", some (.raw "b"), none, [], []⟩ "q").body = .raw "b" :=
  ⟨rfl, rfl, (convertToSQSRecord_fields "us-east-1" "t0"
    ⟨some "id-1", some "rh-1", some (.raw "b"), none, [], []⟩ "q" (.raw "b") rfl rfl).1⟩

/-- C10: the poll loop is entered only when NODE_ENV is development or dev; in
every other environment startProcessing leaves the isProcessing flag set and
returns having run zero poll cycles, so the consumer never polls, processes or
deletes a message. -/
theorem startProcessing_never_polls_outside_dev (nodeEnv : Option String)
    (isProcessing : Bool) (fuel : Nat) (h : isDevOf nodeEnv = false) :
    startProcessingM nodeEnv isProcessing fuel = (0, true) := by
  unfold startProcessingM
  cases isProcessing <;> simp [h]

/-- C10 (witness): in a production environment no poll cycle runs. -/
theorem startProcessing_never_polls_outside_dev_witness :
    isDevOf (some "production") = false ∧
      startProcessingM (some "production") false 1000 = (0, true) :=
  ⟨by decide, startProcessing_never_polls_outside_dev (some "production") false 1000
    (by decide)⟩

/-- When every invocation fails, the retry loop with k remaining invocations
performs all k of them, sleeps k - 1 times with the capped doubling schedule,
and throws the terminal error naming the service and maxRetries. -/
theorem retryLoop_allFail {α : Type} (op : Nat → Except String α) (svc : String)
    (maxRetries maxD f : Nat) (hop : ∀ n, ∃ e, op n = Except.error e) :
    ∀ k attempts currentDelay, 1 ≤ k →
      retryLoop op svc maxRetries maxD f k attempts currentDelay =
        ⟨.error (connectFailedAfterMsg svc maxRetries), attempts + k,
         geomDelays maxD f currentDelay k⟩ := by
  intro k
  induction k with
  | zero => intro _ _ hk; omega
  | succ k ih =>
    intro attempts cur _
    obtain ⟨e, he⟩ := hop attempts
    cases k with
    | zero => simp [retryLoop, he, geomDelays]
    | succ k2 =>
      have hrest := ih (attempts + 1) (min (cur * f) maxD) (by omega)
      conv_lhs => rw [retryLoop]
      rw [he]
      simp only [Nat.succ_ne_zero, if_false, hrest]
      rw [RetryRun.mk.injEq]
      refine ⟨rfl, by omega, rfl⟩

/-- Total wait of the failing-retry schedule is bounded by the geometric sum
initialDelay * (1 + f + ... + f^(k-1)). -/
theorem geomDelays_sum_le_geomSum (maxD f : Nat) :
    ∀ k d, (geomDelays maxD f d (k + 1)).sum ≤ d * geomSum f k := by
  intro k
  induction k with
  | zero => intro d; simp [geomDelays, geomSum]
  | succ k ih =>
    intro d
    have h1 := ih (min (d * f) maxD)
    have h2 : min (d * f) maxD * geomSum f k ≤ d * f * geomSum f k :=
      Nat.mul_le_mul_right _ (Nat.min_le_left _ _)
    have h3 : d * geomSum f (k + 1) = d + d * f * geomSum f k := by
      simp [geomSum]; ring
    simp only [geomDelays, List.sum_cons]
    omega

/-- When initialDelay does not exceed maxDelay, every wait is capped by
maxDelay, so the total wait over k sleeps is at most k * maxDelay. -/
theorem geomDelays_sum_le_cap (maxD f : Nat) :
    ∀ k d, d ≤ maxD → (geomDelays maxD f d (k + 1)).sum ≤ k * maxD := by
  intro k
  induction k with
  | zero => intro d _; simp [geomDelays]
  | succ k ih =>
    intro d hd
    have h1 := ih (min (d * f) maxD) (Nat.min_le_right _ _)
    have h2 : (k + 1) * maxD = maxD + k * maxD := by ring
    simp only [geomDelays, List.sum_cons]
    omega

/-- C2 (amended): for an always-failing operation, with at least one attempt
allowed and initialDelay at most maxDelay, retryConnection invokes the
operation exactly maxRetries times, raises the terminal error naming the
serviceName and the attempt count, performs the capped doubling delay
schedule, and its total wait is bounded by
initialDelay * (1 + f + ... + f^(maxRetries-2)) and by
(maxRetries - 1) * maxDelay. -/
theorem retryConnection_retry_bound {α : Type} (op : Nat → Except String α)
    (serviceName : String) (maxRetries initialDelay maxDelay backoffFactor : Nat)
    (hop : ∀ n, ∃ e, op n = Except.error e)
    (h1 : 1 ≤ maxRetries) (h2 : initialDelay ≤ maxDelay) :
    (retryConnectionRun op maxRetries initialDelay maxDelay backoffFactor
        serviceName).result = .error (connectFailedAfterMsg serviceName maxRetries) ∧
    (retryConnectionRun op maxRetries initialDelay maxDelay backoffFactor
        serviceName).invocations = maxRetries ∧
    (retryConnectionRun op maxRetries initialDelay maxDelay backoffFactor
        serviceName).delays = geomDelays maxDelay backoffFactor initialDelay maxRetries ∧
    (retryConnectionRun op maxRetries initialDelay maxDelay backoffFactor
        serviceName).delays.sum ≤ initialDelay * geomSum backoffFactor (maxRetries - 1) ∧
    (retryConnectionRun op maxRetries initialDelay maxDelay backoffFactor
        serviceName).delays.sum ≤ (maxRetries - 1) * maxDelay := by
  have hrun := retryLoop_allFail op serviceName maxRetries maxDelay backoffFactor hop
    maxRetries 0 initialDelay h1
  unfold retryConnectionRun
  rw [hrun]
  obtain ⟨k, rfl⟩ : ∃ k, maxRetries = k + 1 := ⟨maxRetries - 1, by omega⟩
  refine ⟨rfl, by show 0 + (k + 1) = k + 1; omega, rfl, ?_, ?_⟩
  · simpa using geomDelays_sum_le_geomSum maxDelay backoffFactor k initialDelay
  · simpa using geomDelays_sum_le_cap maxDelay backoffFactor k initialDelay h2

/-- C2 (counterexample): the claim bounds the total wait by
(maxRetries - 1) * maxDelay for every retry options, but the first delay is
the raw initialDelay, never capped: with maxRetries 2, initialDelay 50,
maxDelay 10 and backoffFactor 2 the always-failing operation waits 50 ms in
total, exceeding (2 - 1) * 10 = 10 ms. -/
theorem retryConnection_maxDelay_counterexample :
    (retryConnectionRun (fun _ => (Except.error "econnrefused" : Except String Unit))
        2 50 10 2 "Redis").delays.sum = 50 ∧
    ¬ ((retryConnectionRun (fun _ => (Except.error "econnrefused" : Except String Unit))
        2 50 10 2 "Redis").delays.sum ≤ (2 - 1) * 10) := by
  decide

/-- C2 (witness for the amended theorem): the KMS call-site options
(maxRetries 3, initialDelay 1000, maxDelay 30000) with an always-failing
operation yield exactly 3 invocations. -/
theorem retryConnection_retry_bound_witness :
    (∀ n : Nat, ∃ e, (fun _ => (Except.error "econnrefused" : Except String Unit)) n
        = Except.error e) ∧ (1 ≤ 3 ∧ (1000 : Nat) ≤ 30000) ∧
    (retryConnectionRun (fun _ => (Except.error "econnrefused" : Except String Unit))
        3 1000 30000 2 "AWS KMS Encrypt").invocations = 3 :=
  ⟨fun _ => ⟨"econnrefused", rfl⟩, ⟨by decide, by decide⟩,
   (retryConnection_retry_bound _ "AWS KMS Encrypt" 3 1000 30000 2
      (fun _ => ⟨"econnrefused", rfl⟩) (by decide) (by decide)).2.1⟩

/-- C3 (amended): when the transport dispatch fails even after the Retry
Executor's retries, the SNS topic-publish provider returns a SendResult with
success false and an error field rather than throwing; the SQS queue-send
provider instead throws a ProviderError (operationFailed, code
PROVIDER_003) to its caller. -/
theorem provider_send_failure_propagation
    (envTopicArn envQueueUrl : Option String) (now : String)
    (publish : PublishCommandM → Nat → Except String SnsRespM)
    (sendMsg : SendMessageCommandM → Nat → Except String SqsRespM)
    (flatEvent : FlatEventM) (event : NotificationEventM) (cfgS cfgQ : ProviderCfgM)
    (hp : ∀ c n, ∃ e, publish c n = Except.error e)
    (hq : ∀ c n, ∃ e, sendMsg c n = Except.error e) :
    ((snsProviderSend envTopicArn now publish flatEvent cfgS).success = false ∧
     (snsProviderSend envTopicArn now publish flatEvent cfgS).error.isSome = true) ∧
    (∃ om, sqsProviderSend envQueueUrl now sendMsg event cfgQ =
      .error (operationFailedErr "publish" "AWS SQS" om)) := by
  constructor
  · unfold snsProviderSend
    cases h : firstTruthyStr (cfgS.config.lookup "topicArn") envTopicArn with
    | none => exact ⟨rfl, rfl⟩
    | some topicArn =>
      have hr := retryLoop_allFail (publish (mkPublishCommand topicArn flatEvent))
        "AWS SNS Publish" 3 30000 2 (hp _) 3 0 1000 (by omega)
      dsimp only [retryConnectionRun]
      rw [hr]
      exact ⟨rfl, rfl⟩
  · unfold sqsProviderSend
    cases h : firstTruthyStr (cfgQ.config.lookup "queueUrl") envQueueUrl with
    | none => exact ⟨some (configMissingErr "queueUrl" "AWS SQS").message, rfl⟩
    | some queueUrl =>
      have hr := retryLoop_allFail (sendMsg (mkSendMessageCommand queueUrl event))
        "AWS SQS Send" 3 30000 2 (hq _) 3 0 1000 (by omega)
      dsimp only [retryConnectionRun]
      rw [hr]
      exact ⟨some (connectFailedAfterMsg "AWS SQS Send" 3), rfl⟩

/-- C3 (counterexample): the claim states that both providers return
SendResult{success:false} on transport failure after retries, but the SQS
queue-send provider throws: with a configured queue URL and a transport that
fails every attempt, SqsProviderAdapter.send raises
ProviderError.operationFailed (publish, AWS SQS) wrapping the retry-exhaustion
error, instead of returning a SendResult. -/
theorem sqs_send_throws_counterexample :
    sqsProviderSend (some "http://localhost:4566/000000000000/notification-queue")
        "2024-01-01T00:00:00Z" (fun _ _ => .error "econnrefused") baseEvent
        ⟨"aws-sqs-provider", "sqs", "AWS SQS Provider", true, []⟩ =
      .error (operationFailedErr "publish" "AWS SQS"
        (some (connectFailedAfterMsg "AWS SQS Send" 3))) := by
  rfl

/-- C3 (witness for the amended theorem). -/
theorem provider_send_failure_propagation_witness :
    (∀ (c : PublishCommandM) (n : Nat), ∃ e,
        (fun (_ : PublishCommandM) (_ : Nat) =>
          (Except.error "econnrefused" : Except String SnsRespM)) c n = Except.error e) ∧
    ((snsProviderSend (some "arn:aws:sns:us-east-1:000000000000:events") "t0"
        (fun _ _ => .error "econnrefused") sampleFlatEvent
        ⟨"aws-sns-provider", "sns", "AWS SNS Provider", true, []⟩).success = false) :=
  ⟨fun _ _ => ⟨"econnrefused", rfl⟩,
   (provider_send_failure_propagation
      (some "arn:aws:sns:us-east-1:000000000000:events") (some "http://q") "t0"
      (fun _ _ => .error "econnrefused") (fun _ _ => .error "econnrefused")
      sampleFlatEvent baseEvent
      ⟨"aws-sns-provider", "sns", "AWS SNS Provider", true, []⟩
      ⟨"aws-sqs-provider", "sqs", "AWS SQS Provider", true, []⟩
      (fun _ _ => ⟨"econnrefused", rfl⟩) (fun _ _ => ⟨"econnrefused", rfl⟩)).1.1⟩

/-- C4: a ciphertext produced by KmsEncryptionService.encrypt decrypts back to
the original plaintext under the identical context (round-trip law); under any
context differing in at least one of the three tenant fields decryption fails
with an error; and the ciphertext is bound to exactly the context supplied to
encrypt, which both encrypt and decrypt pass verbatim to the key-management
service. -/
theorem kms_context_binding (envKeyId : Option String) (data keyId : String)
    (ctx ctx2 : EncryptionContextM) (c : KmsCiphertextM)
    (henc : kmsEncrypt envKeyId data keyId ctx = .ok c) :
    kmsDecrypt c ctx = .ok data ∧
    (ctx2 ≠ ctx → ∃ e, kmsDecrypt c ctx2 = .error e) ∧
    c.context = ctx := by
  unfold kmsEncrypt at henc
  cases h : firstTruthyStr (some keyId) envKeyId with
  | none =>
    rw [h] at henc
    exact absurd henc (by simp)
  | some k =>
    rw [h] at henc
    simp only [retryConnectionRun, retryLoop, kmsBackendEncrypt] at henc
    obtain rfl : KmsCiphertextM.mk data ctx k = c := by
      simpa using henc
    refine ⟨?_, ?_, rfl⟩
    · simp [kmsDecrypt, retryConnectionRun, retryLoop, kmsBackendDecrypt]
    · intro hne
      refine ⟨connectFailedAfterMsg "AWS KMS Decrypt" 3, ?_⟩
      simp [kmsDecrypt, retryConnectionRun, retryLoop, kmsBackendDecrypt, hne]

/-- C4 (witness): a concrete round trip; changing only appId in the context
makes decryption fail. -/
theorem kms_context_binding_witness :
    kmsEncrypt none "hello" "key-1" ⟨"fi1", "app1", "prod"⟩ =
      .ok ⟨"hello", ⟨"fi1", "app1", "prod"⟩, "key-1"⟩ ∧
    kmsDecrypt ⟨"hello", ⟨"fi1", "app1", "prod"⟩, "key-1"⟩ ⟨"fi1", "app1", "prod"⟩ =
      .ok "hello" ∧
    (∃ e, kmsDecrypt ⟨"hello", ⟨"fi1", "app1", "prod"⟩, "key-1"⟩ ⟨"fi1", "app2", "prod"⟩ =
      .error e) :=
  ⟨by rfl,
   (kms_context_binding none "hello" "key-1" ⟨"fi1", "app1", "prod"⟩
      ⟨"fi1", "app2", "prod"⟩ ⟨"hello", ⟨"fi1", "app1", "prod"⟩, "key-1"⟩ (by rfl)).1,
   (kms_context_binding none "hello" "key-1" ⟨"fi1", "app1", "prod"⟩
      ⟨"fi1", "app2", "prod"⟩ ⟨"hello", ⟨"fi1", "app1", "prod"⟩, "key-1"⟩ (by rfl)).2.1
      (by decide)⟩

/-- Bind of a successful Except reduces to the continuation. -/
theorem except_bind_ok {ε α β : Type} (a : α) (f : α → Except ε β) :
    (Except.ok a : Except ε α) >>= f = f a := rfl

/-- A non-null body that does not match the envelope shape is returned
unchanged by parseNotificationEvent. -/
theorem parseNotificationEventM_direct (e : Json) (hnull : e.isNull = false)
    (henv : envelopeShaped e = false) : parseNotificationEventM e = .ok e := by
  cases e
  case null => simp [Json.isNull] at hnull
  all_goals simp [parseNotificationEventM, henv]

/-- A Notification envelope is unwrapped to its inner Message by
parseNotificationEvent. -/
theorem parseNotificationEventM_envelope (e : Json) :
    parseNotificationEventM (mkNotificationEnvelope e) = .ok e := rfl

/-- C6: for every domain event body (any non-null JSON document that does not
itself match the envelope shape), the handler processes a record whose body is
the serialized event identically to a record whose body is the serialized
pub/sub envelope { Type: Notification, Message: serialized event }: same
validation outcome, same decryption, same dispatched action, same result, for
every tenant configuration, decrypt service and sink. -/
theorem envelope_tolerance (cfg : TenantEncryptionCfgM) (dec : DecryptFn)
    (sink : SinkFn) (e : Json) (hnull : e.isNull = false)
    (henv : envelopeShaped e = false) :
    processRecordM cfg dec sink (recordWithBody (.enc e)) =
      processRecordM cfg dec sink (recordWithBody (.enc (mkNotificationEnvelope e))) := by
  have h1 : parseSnsMessageM (recordWithBody (.enc e)) = .ok e := rfl
  have h2 : parseSnsMessageM (recordWithBody (.enc (mkNotificationEnvelope e))) =
      .ok (mkNotificationEnvelope e) := rfl
  simp only [processRecordM, h1, h2, except_bind_ok,
    parseNotificationEventM_direct e hnull henv, parseNotificationEventM_envelope e]

/-- C6 (witness): the concrete base event processes identically raw and
wrapped. -/
theorem envelope_tolerance_witness :
    (baseEvent.toJson.isNull = false ∧ envelopeShaped baseEvent.toJson = false) ∧
    processRecordM sampleTenantEncryptionCfg okDecryptFn okSinkFn
        (recordWithBody (.enc baseEvent.toJson)) =
      processRecordM sampleTenantEncryptionCfg okDecryptFn okSinkFn
        (recordWithBody (.enc (mkNotificationEnvelope baseEvent.toJson))) :=
  ⟨⟨rfl, rfl⟩, envelope_tolerance sampleTenantEncryptionCfg okDecryptFn okSinkFn
    baseEvent.toJson rfl rfl⟩

/-- Bind of a failed Except short-circuits. -/
theorem except_bind_err {ε α β : Type} (e : ε) (f : α → Except ε β) :
    (Except.error e : Except ε α) >>= f = .error e := rfl

/-- C7 (amended): for every valid event processed with encryption enabled
whose payload.data cannot be decrypted, processing the record throws a
NotificationError built by NotificationError.sendFailed (code SEND_FAILED,
the class the spec maps to sink/delivery, not a decryption-specific class)
wrapping the decryption failure, and the Queue Consumer leaves the message
un-deleted (no DeleteMessageCommand is issued for it). -/
theorem decrypt_failure_undeleted (e : NotificationEventM) (dmsg : String)
    (sink : SinkFn) (cfg : TenantEncryptionCfgM) (dec : DecryptFn)
    (hdec : ∀ v ctx, dec v ctx = Except.error dmsg)
    (hcfg : cfg.enabled = true)
    (hval : validateNotificationEventJsM e.toJson = .ok ())
    (awsRegion now queueUrl : String) (msg : SqsMessageM)
    (hbody : msg.body = some (.enc e.toJson)) :
    (∀ r : SQSRecordM, r.body = .enc e.toJson →
      processRecordM cfg dec sink r = .error (.notif (sendFailedErr dmsg))) ∧
    specClassOf NotificationErrorCodeM.SEND_FAILED = SpecErrorClassM.delivery ∧
    (pollQueueBatch (processSqsEventM cfg dec sink) awsRegion now queueUrl
      [msg]).deleteCommands = [] := by
  have hp2 : parseNotificationEventM e.toJson = .ok e.toJson :=
    parseNotificationEventM_direct e.toJson rfl rfl
  have hp3 : processPayloadM cfg dec e.toJson = .error (.notif (sendFailedErr dmsg)) := by
    simp [processPayloadM, hcfg, decryptAndParsePayloadM, hdec]
  have hrec : ∀ r : SQSRecordM, r.body = .enc e.toJson →
      processRecordM cfg dec sink r = .error (.notif (sendFailedErr dmsg)) := by
    intro r hr
    have hp1 : parseSnsMessageM r = .ok e.toJson := by
      simp [parseSnsMessageM, hr, jsonParseJS]
    simp only [processRecordM, hp1, except_bind_ok, hp2, hval, hp3, except_bind_err]
  refine ⟨hrec, rfl, ?_⟩
  have hb2 : (convertToSQSRecordM awsRegion now msg queueUrl).body = .enc e.toJson := by
    simp [convertToSQSRecordM, jstrOrEmpty, hbody, jstrTruthy]
  have hh : processSqsEventM cfg dec sink
      [convertToSQSRecordM awsRegion now msg queueUrl] = .error (.notif (sendFailedErr dmsg)) := by
    simp [processSqsEventM, hrec _ hb2, except_bind_err]
  simp [pollQueueBatch, hh]

/-- C7 (counterexample): the error thrown when payload.data cannot be
decrypted is not classified as a Decryption-class error: the handler wraps the
failure in NotificationError.sendFailed, whose code SEND_FAILED the spec
taxonomy maps to the sink/delivery class, which differs from the decryption
class. -/
theorem decrypt_failure_not_decryption_class :
    processRecordM ⟨true, some "key-1"⟩ (fun _ _ => .error "InvalidCiphertextException")
        okSinkFn (recordWithBody (.enc encEvent.toJson)) =
      .error (.notif (sendFailedErr "InvalidCiphertextException")) ∧
    (sendFailedErr "InvalidCiphertextException").errorCode =
      NotificationErrorCodeM.SEND_FAILED ∧
    specClassOf (sendFailedErr "InvalidCiphertextException").errorCode =
      SpecErrorClassM.delivery ∧
    SpecErrorClassM.delivery ≠ SpecErrorClassM.decryption := by
  exact ⟨rfl, rfl, rfl, by decide⟩

/-- C7 (witness for the amended theorem): the concrete encrypted event is
valid, the decrypt failure surfaces, and its message is left un-deleted. -/
theorem decrypt_failure_undeleted_witness :
    validateNotificationEventJsM encEvent.toJson = .ok () ∧
    (pollQueueBatch (processSqsEventM ⟨true, some "key-1"⟩
        (fun _ _ => .error "InvalidCiphertextException") okSinkFn) "us-east-1" "t0" "q"
        [⟨some "id-1", some "rh-1", some (.enc encEvent.toJson), none, [], []⟩]).deleteCommands
      = [] :=
  ⟨rfl, (decrypt_failure_undeleted encEvent "InvalidCiphertextException" okSinkFn
     ⟨true, some "key-1"⟩ (fun _ _ => .error "InvalidCiphertextException")
     (fun _ _ => rfl) rfl rfl "us-east-1" "t0" "q"
     ⟨some "id-1", some "rh-1", some (.enc encEvent.toJson), none, [], []⟩ rfl).2.2⟩

/-- C5 (counterexample): for a candidate missing only the required field id,
validateEvent returns exactly one error, and that error's path (the AJV
instancePath of the object missing the property, here the empty root pointer)
does not identify the missing field: the field name appears only in the error
message and in params.missingProperty, not in the path. -/
theorem validateEvent_missing_id_path_counterexample :
    validateEvent (eraseAt [] "id" baseEvent.toJson) =
      [mapAjvError (requiredErrorAt "" "id")] ∧
    (validateEvent (eraseAt [] "id" baseEvent.toJson)).all
      (fun err => !(pathMentions err.path "id")) = true := by
  exact ⟨rfl, rfl⟩

set_option maxHeartbeats 4000000 in
/-- C5 (amended): for every fully populated notification event (payload.data
being an object, as the schema requires) validateEvent returns the empty list,
and removing any required field of the schema yields at least one error whose
params.missingProperty names the missing field and whose path is the instance
path of the object missing it; validateEvent always returns a list and never
throws (it is a total function of its input). -/
theorem validateEvent_completeness (e : NotificationEventM)
    (ds : List (String × Json)) (hd : e.payload.data = Json.obj ds) :
    validateEvent e.toJson = [] ∧
    (∀ p f, (p, f) ∈ requiredFieldPaths →
      hasRequiredErrorFor (validateEvent (eraseAt p f e.toJson)) p f = true) := by
  obtain ⟨id, ⟨en, pr, pv, ev, kh, ts, cb, alg, typ, ⟨fi, ap, env⟩⟩,
    ⟨⟨dk, fid, cv, ⟨dev, ip, ua, hn, lang, geo⟩⟩, data, ⟨src, idf, ameta⟩⟩⟩ := e
  simp only at hd
  subst hd
  constructor
  · cases geo with
    | none =>
      simp [validateEvent, ajvValidate, NotificationEventM.toJson, EventHeaderM.toJson,
      TenantM.toJson, EventPayloadM.toJson, EventMetadataM.toJson,
      EventMetadataContextM.toJson, ActivityInfoM.toJson, GeolocationM.toJson,
      validateHeaderAt, validateTenantAt, validatePayloadAt, validateMetadataAt,
      validateContextAt, validateActivityInfoAt, validateGeolocationAt,
      validateStringAt, validateNumberAt, validateAnyObjectAt, validatePropAt,
      requiredErrorsAt, additionalErrorsAt, hasKeyB, headerPropNames, List.lookup,
      childPath, eraseAt, eraseKey, hasRequiredErrorFor, instancePathOf, mapAjvError,
      requiredErrorAt, typeErrorAt, additionalErrorAt, List.filter, List.filterMap]
    | some g =>
      obtain ⟨la, lo, gt⟩ := g
      simp [validateEvent, ajvValidate, NotificationEventM.toJson, EventHeaderM.toJson,
      TenantM.toJson, EventPayloadM.toJson, EventMetadataM.toJson,
      EventMetadataContextM.toJson, ActivityInfoM.toJson, GeolocationM.toJson,
      validateHeaderAt, validateTenantAt, validatePayloadAt, validateMetadataAt,
      validateContextAt, validateActivityInfoAt, validateGeolocationAt,
      validateStringAt, validateNumberAt, validateAnyObjectAt, validatePropAt,
      requiredErrorsAt, additionalErrorsAt, hasKeyB, headerPropNames, List.lookup,
      childPath, eraseAt, eraseKey, hasRequiredErrorFor, instancePathOf, mapAjvError,
      requiredErrorAt, typeErrorAt, additionalErrorAt, List.filter, List.filterMap]
  · intro p f hm
    fin_cases hm
    all_goals simp [validateEvent, ajvValidate, NotificationEventM.toJson, EventHeaderM.toJson,
      TenantM.toJson, EventPayloadM.toJson, EventMetadataM.toJson,
      EventMetadataContextM.toJson, ActivityInfoM.toJson, GeolocationM.toJson,
      validateHeaderAt, validateTenantAt, validatePayloadAt, validateMetadataAt,
      validateContextAt, validateActivityInfoAt, validateGeolocationAt,
      validateStringAt, validateNumberAt, validateAnyObjectAt, validatePropAt,
      requiredErrorsAt, additionalErrorsAt, hasKeyB, headerPropNames, List.lookup,
      childPath, eraseAt, eraseKey, hasRequiredErrorFor, instancePathOf, mapAjvError,
      requiredErrorAt, typeErrorAt, additionalErrorAt, List.filter, List.filterMap]

/-- C5 (witness for the amended theorem). -/
theorem validateEvent_completeness_witness :
    baseEvent.payload.data = Json.obj [("k", .str (.raw "v"))] ∧
    ((["header"], "tenant") ∈ requiredFieldPaths) ∧
    validateEvent baseEvent.toJson = [] ∧
    hasRequiredErrorFor (validateEvent (eraseAt ["header"] "tenant" baseEvent.toJson))
      ["header"] "tenant" = true :=
  ⟨rfl, by decide, (validateEvent_completeness baseEvent _ rfl).1,
   (validateEvent_completeness baseEvent _ rfl).2 ["header"] "tenant" (by decide)⟩

end NotifService
